import Mathlib

/-!
Shallow embedding of the football-predictions web application
(a server-side fetch proxy and a client-side prediction view)
together with proofs about its display logic, its proxy endpoint and
its view state machine.

Modelling conventions:
- JavaScript numbers are modelled as rationals; the claims considered
  here do not depend on binary floating-point rounding.
- Timestamps (Date.getTime values) are modelled as integers counting
  milliseconds; ISO-string parsing is outside the embedded fragment.
- JSON values are modelled by an inductive type; response bodies and
  the view's prediction list are JSON values, exactly as the untyped
  JavaScript data flows through the code.
- String lowercasing is modelled on the ASCII range, which covers the
  alphabet the code manipulates.
-/

namespace Football

/-- A JSON value, the wire format flowing from the upstream API
through the proxy into the view. -/
inductive Json where
  | null : Json
  | bool (b : Bool) : Json
  | num (q : ℚ) : Json
  | str (s : String) : Json
  | arr (xs : List Json) : Json
  | obj (fields : List (String × Json)) : Json

/-- The Prediction record shape received from the upstream API. -/
structure Prediction where
  matchId : String
  homeTeamName : String
  awayTeamName : String
  dateTime : String
  homePrediction : String
  awayPrediction : String
  probHomeWin : ℚ
  probDraw : ℚ
  probAwayWin : ℚ
  expectedHomeGoals : ℚ
  expectedAwayGoals : ℚ

/-!  Derived display helpers of the prediction view. -/

/-- Format the non-negative time difference in milliseconds as the
source does: hours and minutes via Math.floor, with the hours part
omitted when the hour count is zero. -/
def formatTimeDiff (timeDiff : ℤ) : String :=
  if timeDiff < 0 then "Match ended"
  else if timeDiff.toNat / (1000 * 60 * 60) > 0 then
    toString (timeDiff.toNat / (1000 * 60 * 60)) ++ "h " ++
      toString (timeDiff.toNat % (1000 * 60 * 60) / (1000 * 60)) ++ "m"
  else toString (timeDiff.toNat % (1000 * 60 * 60) / (1000 * 60)) ++ "m"

/-- calculateTimeRemaining from the view: the difference between the
kickoff timestamp and the current time, rendered as a string.  Both
times are epoch milliseconds, as produced by Date.getTime. -/
def calculateTimeRemaining (matchTime now : ℤ) : String :=
  formatTimeDiff (matchTime - now)

/-- Math.max of the three outcome probabilities, as computed at the
top of determineOutcome. -/
def maxProb3 (m : Prediction) : ℚ :=
  max m.probHomeWin (max m.probDraw m.probAwayWin)

/-- determineOutcome from the view: compares each probability against
the maximum, checking home first, then away, then draw. -/
def determineOutcome (m : Prediction) : String :=
  if maxProb3 m = m.probHomeWin then m.homeTeamName ++ " likely to win"
  else if maxProb3 m = m.probAwayWin then m.awayTeamName ++ " likely to win"
  else "Draw likely"

/-- The rounding performed by toFixed(0) in JavaScript: the integer
closest to the value, with ties resolved to the larger integer. -/
def jsToFixed0 (q : ℚ) : ℤ :=
  if (1 : ℚ) / 2 ≤ q - Rat.floor q then Rat.floor q + 1 else Rat.floor q

/-- formatPercentage from the view.  The source multiplies the value
by 1 (not 100) before applying toFixed(0) and appending a percent
sign. -/
def formatPercentage (value : ℚ) : String :=
  toString (jsToFixed0 (value * 1)) ++ "%"

/-- The set of code points matched by the whitespace class of a
JavaScript regular expression. -/
def jsWhitespaceCodes : List Nat :=
  [9, 10, 11, 12, 13, 32, 160, 5760, 8192, 8193, 8194, 8195, 8196,
   8197, 8198, 8199, 8200, 8201, 8202, 8232, 8233, 8239, 8287, 12288,
   65279]

/-- Whether a character is JavaScript-regex whitespace. -/
def jsWhitespace (c : Char) : Bool :=
  decide (c.toNat ∈ jsWhitespaceCodes)

/-- ASCII lowercasing, the fragment of toLowerCase exercised by team
names. -/
def toLowerJS (c : Char) : Char :=
  if 65 ≤ c.toNat ∧ c.toNat ≤ 90 then Char.ofNat (c.toNat + 32) else c

/-- Replace each maximal run of whitespace with a single hyphen, as
the global regex replacement in getTeamLogo does.  The flag records
whether the previous character belonged to a whitespace run. -/
def replaceWsAux : Bool → List Char → List Char
  | _, [] => []
  | inRun, c :: cs =>
    if jsWhitespace c then
      (if inRun then [] else ['-']) ++ replaceWsAux true cs
    else c :: replaceWsAux false cs

/-- The team-name transformation of getTeamLogo, in source order:
first replace whitespace runs with hyphens, then lowercase. -/
def formatTeamName (name : String) : String :=
  String.mk ((replaceWsAux false name.data).map toLowerJS)

/-- getTeamLogo from the view: interpolate the transformed team name
into the fixed icon-service URL template. -/
def getTeamLogo (teamName : String) : String :=
  "https://img.icons8.com/color/96/" ++ formatTeamName teamName ++ ".png"

/-- The transformation in the order the specification words it:
lowercase the name, then replace whitespace runs with hyphens. -/
def specTeamNameTransform (name : String) : String :=
  String.mk (replaceWsAux false (name.data.map toLowerJS))

/-!  The server-side fetch proxy (route handler GET). -/

/-- A response of the internal endpoint: HTTP status plus JSON body,
as produced by NextResponse.json. -/
structure ApiResponse where
  status : Nat
  body : Json

/-- The error body the proxy returns from its catch branch. -/
def proxyErrorBody : Json :=
  Json.obj [("error", Json.str "Failed to fetch predictions")]

/-- What the upstream fetch yields, from the proxy's point of view:
either the fetch call itself throws (network error), or a response
arrives with an ok flag, a status code, and a body that either parses
as JSON or fails to parse. -/
inductive UpstreamOutcome where
  | networkError : UpstreamOutcome
  | response (ok : Bool) (status : Nat) (body : Option Json) : UpstreamOutcome

/-- The GET route handler.  A non-ok response or a body that fails to
parse throws inside the try block; accessing the length property of a
parsed null body also throws; every throw is caught and answered with
the generic error payload and status 500.  A parsed non-null body is
returned verbatim with status 200. -/
def GET : UpstreamOutcome → ApiResponse
  | .networkError => ⟨500, proxyErrorBody⟩
  | .response ok _ body =>
    if ok then
      match body with
      | some Json.null => ⟨500, proxyErrorBody⟩
      | some d => ⟨200, d⟩
      | none => ⟨500, proxyErrorBody⟩
    else ⟨500, proxyErrorBody⟩

/-- The failure condition of the upstream interaction named by the
specification: network error, non-success status, or malformed body. -/
def UpstreamFailed : UpstreamOutcome → Prop
  | .networkError => True
  | .response ok _ body => ok = false ∨ body = none

/-- Reading a field of a JSON object, as property access does. -/
def errorField : Json → Option Json
  | .obj fields => fields.lookup "error"
  | _ => none

/-!  The client-side prediction view. -/

/-- JavaScript truthiness of a JSON value. -/
def jsTruthy : Json → Bool
  | .null => false
  | .bool b => b
  | .num q => decide (q ≠ 0)
  | .str s => !s.isEmpty
  | .arr _ => true
  | .obj _ => true

/-- Evaluating the error-property access guarding the success path of
fetchPredictions: on a parsed null body the access itself throws
(result none); on an object the field is looked up and its truthiness
decides; on any other value the access yields undefined, which is
falsy. -/
def dataErrorCheck : Json → Option Bool
  | .null => none
  | .obj fields =>
    some (match fields.lookup "error" with
          | some v => jsTruthy v
          | none => false)
  | _ => some false

/-- The component state held by the four useState hooks of
PredictionList. -/
structure ViewState where
  predictions : Json
  isLoading : Bool
  error : Option String
  lastUpdated : Option ℤ

/-- The initial hook values: empty list, loading, no error, no
last-updated time. -/
def initialViewState : ViewState :=
  ⟨Json.arr [], true, none, none⟩

/-- The message installed by the catch branch of fetchPredictions. -/
def clientErrorMessage : String :=
  "Failed to load predictions. Please try again later."

/-- What a call to the internal endpoint yields, from the view's point
of view: a thrown network error, or a response with an ok flag, a
status, and a body that parses or fails to parse. -/
inductive ClientFetchResult where
  | fail : ClientFetchResult
  | response (ok : Bool) (status : Nat) (body : Option Json) : ClientFetchResult

/-- The first effect of fetchPredictions: setIsLoading(true). -/
def fetchStart (s : ViewState) : ViewState :=
  { s with isLoading := true }

/-- The remainder of fetchPredictions once the fetch settles: a non-ok
response, a parse failure, a throwing or truthy error property all
reach the catch branch, which records the generic error message; the
success path replaces the predictions and the last-updated time.  The
finally branch clears the loading flag on every path.  No branch ever
resets the error field to none. -/
def fetchComplete (s : ViewState) (r : ClientFetchResult) (now : ℤ) :
    ViewState :=
  match r with
  | .fail => { s with error := some clientErrorMessage, isLoading := false }
  | .response ok _ body =>
    if ok then
      match body with
      | none => { s with error := some clientErrorMessage, isLoading := false }
      | some d =>
        match dataErrorCheck d with
        | none =>
          { s with error := some clientErrorMessage, isLoading := false }
        | some true =>
          { s with error := some clientErrorMessage, isLoading := false }
        | some false =>
          { s with predictions := d, lastUpdated := some now,
                   isLoading := false }
    else { s with error := some clientErrorMessage, isLoading := false }

/-- A full invocation of fetchPredictions. -/
def fetchPredictions (s : ViewState) (r : ClientFetchResult) (now : ℤ) :
    ViewState :=
  fetchComplete (fetchStart s) r now

/-- The condition under which an invocation of fetchPredictions takes
its catch branch: non-success response, thrown exception, or an error
payload in the body. -/
def ClientFetchFailed : ClientFetchResult → Prop
  | .fail => True
  | .response ok _ body =>
    ok = false ∨ body = none ∨
      ∃ d, body = some d ∧ dataErrorCheck d ≠ some false

/-- What the component renders, by the early returns of
PredictionList. -/
inductive Display where
  | loadingView : Display
  | errorView (msg : String) : Display
  | emptyView : Display
  | listView (items : Json) (lastUpdated : Option ℤ) : Display

/-- The three abstract view states of the specification: the empty
display and the populated list are both loaded states. -/
inductive DisplayKind where
  | loadingK : DisplayKind
  | errorK : DisplayKind
  | loadedK : DisplayKind
deriving DecidableEq

/-- Which abstract state a rendered display belongs to. -/
def displayKind : Display → DisplayKind
  | .loadingView => .loadingK
  | .errorView _ => .errorK
  | .emptyView => .loadedK
  | .listView _ _ => .loadedK

/-- The render function of PredictionList: loading first, then error,
then the empty message, then the card list (the length property of a
non-array never equals zero, so a non-array value falls through to the
list branch, as in the source). -/
def render (s : ViewState) : Display :=
  if s.isLoading then .loadingView
  else
    match s.error with
    | some m => .errorView m
    | none =>
      match s.predictions with
      | .arr xs =>
        if xs.isEmpty then .emptyView
        else .listView s.predictions s.lastUpdated
      | _ => .listView s.predictions s.lastUpdated

/-- A concrete prediction record used to instantiate universally
quantified theorems. -/
def samplePrediction : Prediction :=
  ⟨"m1", "Home United", "Away City", "2025-01-01T15:00:00Z", "1", "1",
   1/5, 1/2, 3/10, 1, 1⟩

/-! Helper lemmas. -/

/-- A string obtained by appending the minutes suffix is never the
match-ended string: their final characters differ. -/
theorem append_m_ne_matchEnded (s : String) : s ++ "m" ≠ "Match ended" := by
  intro h
  have hd := congrArg String.data h
  rw [String.data_append] at hd
  have hlast := congrArg List.getLast? hd
  rw [show "m".data = ['m'] from rfl, List.getLast?_concat] at hlast
  exact absurd hlast (by decide)

/-- None of the code points between 65 and 122 is regex whitespace. -/
theorem jsWhitespaceCodes_out {m : Nat} (h1 : 65 ≤ m) (h2 : m ≤ 122) :
    decide (m ∈ jsWhitespaceCodes) = false := by
  simp [jsWhitespaceCodes]
  omega

/-- ASCII lowercasing preserves the whitespace classification. -/
theorem jsWhitespace_toLowerJS (c : Char) :
    jsWhitespace (toLowerJS c) = jsWhitespace c := by
  unfold toLowerJS
  by_cases h : 65 ≤ c.toNat ∧ c.toNat ≤ 90
  · rw [if_pos h]
    have hval : (Char.ofNat (c.toNat + 32)).toNat = c.toNat + 32 := by
      unfold Char.ofNat
      rw [dif_pos (Or.inl (by omega))]
      rfl
    unfold jsWhitespace
    rw [hval, jsWhitespaceCodes_out (by omega) (by omega),
      jsWhitespaceCodes_out h.1 (by omega)]
  · rw [if_neg h]

/-- Lowercasing commutes with the whitespace-run replacement. -/
theorem replaceWsAux_map_toLowerJS (l : List Char) (b : Bool) :
    (replaceWsAux b l).map toLowerJS = replaceWsAux b (l.map toLowerJS) := by
  induction l generalizing b with
  | nil => rfl
  | cons c cs ih =>
    simp only [List.map_cons, replaceWsAux, jsWhitespace_toLowerJS]
    by_cases h : jsWhitespace c
    · rw [if_pos h, if_pos h, List.map_append, ih]
      cases b <;> rfl
    · rw [if_neg h, if_neg h, List.map_cons, ih]

/-! Claim theorems. -/

/-- C1: the claim states that formatPercentage scales a unit fraction
by 100 and renders it as an integer percent, with formatPercentage of
0.42 equal to the string 42 percent and formatPercentage of 1 equal to
the string 100 percent.  The source multiplies the value by 1 rather
than 100, so the code actually renders 0.42 as the string 0 percent
and 1 as the string 1 percent: this theorem evaluates the embedded
code at both inputs, exhibiting the divergence. -/
theorem formatPercentage_times_one_bug :
    formatPercentage (42 / 100) = "0%" ∧ formatPercentage 1 = "1%" ∧
    formatPercentage (42 / 100) ≠ "42%" ∧ formatPercentage 1 ≠ "100%" := by
  have h42 : Rat.floor ((42 : ℚ) / 100 * 1) = 0 := by
    have h : Rat.floor ((42 : ℚ) / 100 * 1) = ⌊(42 : ℚ) / 100 * 1⌋ := rfl
    rw [h]
    norm_num [Int.floor_eq_iff]
  have h1 : Rat.floor ((1 : ℚ) * 1) = 1 := by
    have h : Rat.floor ((1 : ℚ) * 1) = ⌊(1 : ℚ) * 1⌋ := rfl
    rw [h]
    norm_num
  have e42 : formatPercentage (42 / 100) = "0%" := by
    unfold formatPercentage jsToFixed0
    rw [h42, if_neg (by push_cast; norm_num)]
    rfl
  have e1 : formatPercentage 1 = "1%" := by
    unfold formatPercentage jsToFixed0
    rw [h1, if_neg (by push_cast; norm_num)]
    rfl
  exact ⟨e42, e1, by rw [e42]; decide, by rw [e1]; decide⟩

/-- C3: determineOutcome returns the home-win message whenever the
home probability equals the maximum of the three probabilities;
otherwise the away-win message whenever the away probability equals
the maximum; otherwise the draw message, and in that case the draw
probability is the maximum, so the selected outcome always carries the
maximal probability and ties resolve home first, then away, then
draw. -/
theorem determineOutcome_argmax_precedence (m : Prediction) :
    (m.probHomeWin = maxProb3 m →
      determineOutcome m = m.homeTeamName ++ " likely to win") ∧
    (m.probHomeWin ≠ maxProb3 m → m.probAwayWin = maxProb3 m →
      determineOutcome m = m.awayTeamName ++ " likely to win") ∧
    (m.probHomeWin ≠ maxProb3 m → m.probAwayWin ≠ maxProb3 m →
      determineOutcome m = "Draw likely" ∧ m.probDraw = maxProb3 m) := by
  have e : maxProb3 m = max m.probHomeWin (max m.probDraw m.probAwayWin) := rfl
  unfold determineOutcome
  refine ⟨?_, ?_, ?_⟩
  · intro h
    rw [if_pos h.symm]
  · intro h1 h2
    rw [if_neg (fun hh => h1 hh.symm), if_pos h2.symm]
  · intro h1 h2
    rw [if_neg (fun hh => h1 hh.symm), if_neg (fun hh => h2 hh.symm)]
    refine ⟨rfl, ?_⟩
    rcases max_choice m.probHomeWin (max m.probDraw m.probAwayWin) with h | h
    · exact absurd (e.trans h).symm h1
    · rcases max_choice m.probDraw m.probAwayWin with h' | h'
      · exact ((e.trans h).trans h').symm
      · exact absurd (e.trans (h.trans h')).symm h2

/-- Witness for C3: on the sample prediction the draw probability is
the strict maximum, and determineOutcome picks the draw message. -/
theorem determineOutcome_argmax_precedence_witness :
    determineOutcome samplePrediction = "Draw likely" ∧
    samplePrediction.probDraw = maxProb3 samplePrediction :=
  (determineOutcome_argmax_precedence samplePrediction).2.2
    (by norm_num [samplePrediction, maxProb3])
    (by norm_num [samplePrediction, maxProb3])

/-- C4: calculateTimeRemaining returns the match-ended string exactly
when the kickoff timestamp minus the current time is negative;
a kickoff 90 minutes in the future renders as 1h 30m and one
45 minutes in the future renders as 45m. -/
theorem calculateTimeRemaining_spec (matchTime now : ℤ) :
    (calculateTimeRemaining matchTime now = "Match ended" ↔
      matchTime - now < 0) ∧
    calculateTimeRemaining (now + 90 * 60000) now = "1h 30m" ∧
    calculateTimeRemaining (now + 45 * 60000) now = "45m" := by
  refine ⟨⟨?_, ?_⟩, ?_, ?_⟩
  · intro h
    by_contra hlt
    push_neg at hlt
    unfold calculateTimeRemaining formatTimeDiff at h
    rw [if_neg (not_lt.mpr hlt)] at h
    by_cases hh : (matchTime - now).toNat / (1000 * 60 * 60) > 0
    · rw [if_pos hh] at h
      exact append_m_ne_matchEnded _ h
    · rw [if_neg hh] at h
      exact append_m_ne_matchEnded _ h
  · intro h
    unfold calculateTimeRemaining formatTimeDiff
    rw [if_pos h]
  · unfold calculateTimeRemaining
    rw [show now + 90 * 60000 - now = 5400000 by ring]
    decide
  · unfold calculateTimeRemaining
    rw [show now + 45 * 60000 - now = 2700000 by ring]
    decide

/-- Witness for C4: a kickoff 100 milliseconds before the current time
displays as match ended, via the backward direction of the
equivalence. -/
theorem calculateTimeRemaining_spec_witness :
    calculateTimeRemaining 100 200 = "Match ended" ∧ (100 : ℤ) - 200 < 0 :=
  ⟨(calculateTimeRemaining_spec 100 200).1.mpr (by decide), by decide⟩

/-- C9: getTeamLogo interpolates the team name, lowercased and with
whitespace runs replaced by hyphens, into the fixed icon-service URL
template, for every team name; the transformation agrees with the
specification order of operations (lowercase first, then replace), and
no validation of the resulting URL occurs since the function is total
on strings. -/
theorem getTeamLogo_template (teamName : String) :
    getTeamLogo teamName =
      "https://img.icons8.com/color/96/" ++
        specTeamNameTransform teamName ++ ".png" := by
  unfold getTeamLogo formatTeamName specTeamNameTransform
  rw [replaceWsAux_map_toLowerJS]

/-- C5: every failure of the proxied upstream interaction, whether a
network error, a non-success status, or a malformed body, makes the
GET handler respond with status 500 and a payload whose error field
holds the generic message; the handler is a single pure function of
one upstream outcome, so no retry, backoff, or partial result can
occur. -/
theorem GET_failure_500_generic (o : UpstreamOutcome)
    (h : UpstreamFailed o) :
    (GET o).status = 500 ∧
    errorField (GET o).body =
      some (Json.str "Failed to fetch predictions") := by
  cases o with
  | networkError => exact ⟨rfl, rfl⟩
  | response ok st body =>
    rcases h with h | h
    · subst h
      exact ⟨rfl, rfl⟩
    · subst h
      cases ok <;> exact ⟨rfl, rfl⟩

/-- Witness for C5: an upstream 503 response yields status 500 with
the generic error field. -/
theorem GET_failure_500_generic_witness :
    (GET (.response false 503 none)).status = 500 ∧
    errorField (GET (.response false 503 none)).body =
      some (Json.str "Failed to fetch predictions") :=
  GET_failure_500_generic (.response false 503 none) (Or.inl rfl)

/-- C6: on an upstream success response whose body parses as a JSON
array, the GET handler returns the parsed array verbatim with the
success status 200, whatever the upstream status code and array
contents are. -/
theorem GET_success_array_verbatim (status : Nat) (xs : List Json) :
    GET (.response true status (some (Json.arr xs))) =
      ⟨200, Json.arr xs⟩ := rfl

/-- C10: every failing invocation of the view's fetch, whether a
thrown exception, a non-success response, a parse failure, or an error
payload in the body, leaves the predictions list and the last-updated
timestamp exactly as they were; only the error message is installed
and the loading flag cleared. -/
theorem fetchPredictions_failure_preserves_data (s : ViewState)
    (r : ClientFetchResult) (now : ℤ) (h : ClientFetchFailed r) :
    (fetchPredictions s r now).predictions = s.predictions ∧
    (fetchPredictions s r now).lastUpdated = s.lastUpdated ∧
    (fetchPredictions s r now).error = some clientErrorMessage ∧
    (fetchPredictions s r now).isLoading = false := by
  cases r with
  | fail => exact ⟨rfl, rfl, rfl, rfl⟩
  | response ok st body =>
    rcases h with h | h | ⟨d, hb, hd⟩
    · subst h
      exact ⟨rfl, rfl, rfl, rfl⟩
    · subst h
      cases ok <;> exact ⟨rfl, rfl, rfl, rfl⟩
    · subst hb
      cases ok with
      | false => exact ⟨rfl, rfl, rfl, rfl⟩
      | true =>
        cases hc : dataErrorCheck d with
        | none =>
          simp only [fetchPredictions, fetchStart, fetchComplete, hc]
          exact ⟨rfl, rfl, rfl, rfl⟩
        | some b =>
          cases b with
          | false => exact absurd hc hd
          | true =>
            simp only [fetchPredictions, fetchStart, fetchComplete, hc]
            exact ⟨rfl, rfl, rfl, rfl⟩

/-- Witness for C10: a thrown fetch from the initial state leaves the
empty predictions array and the absent timestamp untouched. -/
theorem fetchPredictions_failure_preserves_data_witness :
    (fetchPredictions initialViewState .fail 0).predictions =
      initialViewState.predictions ∧
    (fetchPredictions initialViewState .fail 0).lastUpdated =
      initialViewState.lastUpdated ∧
    (fetchPredictions initialViewState .fail 0).error =
      some clientErrorMessage ∧
    (fetchPredictions initialViewState .fail 0).isLoading = false :=
  fetchPredictions_failure_preserves_data initialViewState .fail 0 trivial

/-- C7: a successful fetch that yields an empty prediction array makes
the view render the no-predictions display rather than the error
display, for any state whose error field is unset, in particular the
mount state. -/
theorem emptyArray_renders_emptyView (s : ViewState) (status : Nat)
    (now : ℤ) (h : s.error = none) :
    render (fetchPredictions s
      (.response true status (some (Json.arr []))) now) =
      Display.emptyView := by
  simp [fetchPredictions, fetchStart, fetchComplete, dataErrorCheck,
    render, h]

/-- Witness for C7: from the initial mount state, a 200 response with
an empty array renders the no-predictions display. -/
theorem emptyArray_renders_emptyView_witness :
    render (fetchPredictions initialViewState
      (.response true 200 (some (Json.arr []))) 0) = Display.emptyView :=
  emptyArray_renders_emptyView initialViewState 200 0 rfl

/-- C8: after a successful fetch from an error-free state, a forced
retry passes through the loading display and ends in a loaded display
(list or empty), and the last-updated timestamp is replaced by the
time of the new successful fetch. -/
theorem retry_after_success_reaches_loaded (s : ViewState)
    (st1 st2 : Nat) (t1 t2 : ℤ) (d1 d2 : List Json)
    (h : s.error = none) :
    render (fetchStart (fetchPredictions s
      (.response true st1 (some (Json.arr d1))) t1)) =
      Display.loadingView ∧
    displayKind (render (fetchComplete
      (fetchStart (fetchPredictions s
        (.response true st1 (some (Json.arr d1))) t1))
      (.response true st2 (some (Json.arr d2))) t2)) =
      DisplayKind.loadedK ∧
    (fetchComplete
      (fetchStart (fetchPredictions s
        (.response true st1 (some (Json.arr d1))) t1))
      (.response true st2 (some (Json.arr d2))) t2).lastUpdated =
      some t2 := by
  refine ⟨rfl, ?_, rfl⟩
  cases d2 with
  | nil =>
    simp [fetchPredictions, fetchStart, fetchComplete, dataErrorCheck,
      render, displayKind, h]
  | cons x xs =>
    simp [fetchPredictions, fetchStart, fetchComplete, dataErrorCheck,
      render, displayKind, h]

/-- Witness for C8: concrete successful fetch followed by a forced
retry from the initial state. -/
theorem retry_after_success_reaches_loaded_witness :
    render (fetchStart (fetchPredictions initialViewState
      (.response true 200 (some (Json.arr [Json.str "p"]))) 1)) =
      Display.loadingView ∧
    displayKind (render (fetchComplete
      (fetchStart (fetchPredictions initialViewState
        (.response true 200 (some (Json.arr [Json.str "p"]))) 1))
      (.response true 200 (some (Json.arr [Json.str "q"]))) 2)) =
      DisplayKind.loadedK ∧
    (fetchComplete
      (fetchStart (fetchPredictions initialViewState
        (.response true 200 (some (Json.arr [Json.str "p"]))) 1))
      (.response true 200 (some (Json.arr [Json.str "q"]))) 2).lastUpdated =
      some 2 :=
  retry_after_success_reaches_loaded initialViewState 200 200 1 2
    [Json.str "p"] [Json.str "q"] rfl

/-- C2: the claim states that a retry from the error state whose fetch
succeeds leaves the view in the loaded state with the error display
gone.  In the source, no branch of fetchPredictions ever resets the
error state variable, so after a failed mount fetch puts the view into
the error display, a retry whose fetch succeeds with a non-empty
prediction array re-enters loading but then renders the error display
again, not the loaded list: this theorem evaluates the embedded view
at that scenario. -/
theorem retry_success_error_display_persists :
    render (fetchPredictions initialViewState ClientFetchResult.fail 0) =
      Display.errorView clientErrorMessage ∧
    render (fetchStart (fetchPredictions initialViewState
      ClientFetchResult.fail 0)) = Display.loadingView ∧
    render (fetchComplete
      (fetchStart (fetchPredictions initialViewState
        ClientFetchResult.fail 0))
      (ClientFetchResult.response true 200
        (some (Json.arr [Json.str "prediction"]))) 7) =
      Display.errorView clientErrorMessage :=
  ⟨rfl, rfl, rfl⟩

end Football
